import Mathlib

/-!
Shallow embedding of the MiTH BLE temperature/humidity sensor reader
(src/mith.py together with src/btle.py).

Modelling conventions:
* byte sequences are `List Nat` (every real byte is `< 256`);
* Python floats produced by `/ 10.` and `/ 100` are modelled exactly as `Rat`;
* Python `dict` state (`MiTH._adv_counter`, `MiTH._latest_measurement_time`)
  is modelled as an association list with Python get/assign semantics;
* wall-clock values (`datetime.now()`, `time.perf_counter()`) are passed in
  as explicit parameters, and the `timestamp`/`sensor_name` fields of
  `Measurement`, which no examined property touches, are omitted;
* a Python scalar index `data[i]` that can raise `IndexError` is modelled by
  `List.get?`, and an escaping exception by a distinguished `fault` result;
* the blocking receive loop of btle.py is modelled as a fold over a finite
  trace of receive outcomes (`RecvEvent`): a frame delivered by `sock.recv`,
  an `OSError` raised by it, or a `KeyboardInterrupt` delivered at the
  receive call.
-/

/-- Python `int.from_bytes(bs, byteorder='big')`; `'big'` is also the default
byteorder, used at mith.py line 136. -/
def fromBytesBE : List Nat → Nat
  | [] => 0
  | b :: t => b * 256 ^ t.length + fromBytesBE t

/-- Python `int.from_bytes(bs, byteorder='little')`. -/
def fromBytesLE (l : List Nat) : Nat :=
  fromBytesBE l.reverse

/-- Two's-complement reading of an unsigned value of the given bit width,
the effect of `signed=True` in Python `int.from_bytes`. -/
def toSignedWidth (bits : Nat) (v : Nat) : Int :=
  if 2 * v < 2 ^ bits then (v : Int) else (v : Int) - 2 ^ bits

/-- Python `int.from_bytes(bs, byteorder='big', signed=True)`. -/
def signedOfBytesBE (l : List Nat) : Int :=
  toSignedWidth (8 * l.length) (fromBytesBE l)

/-- Python `int.from_bytes(bs, byteorder='little', signed=True)`. -/
def signedOfBytesLE (l : List Nat) : Int :=
  toSignedWidth (8 * l.length) (fromBytesLE l)

/-- Python slice `l[a:b]` for `0 ≤ a ≤ b` (slices clamp, they never fault). -/
def pySlice (l : List Nat) (a b : Nat) : List Nat :=
  (l.take b).drop a

/-- Whether `pat` occurs at the head of `l`; helper for `bytesFind`. -/
def isStartOf : List Nat → List Nat → Bool
  | [], _ => true
  | _ :: _, [] => false
  | a :: ps, b :: ls => a == b && isStartOf ps ls

/-- Python `bytes.find(pat)`: index of the first occurrence of `pat`,
`none` standing for the `-1` returned when `pat` is absent. -/
def bytesFind (pat : List Nat) : List Nat → Option Nat
  | [] => if isStartOf pat [] then some 0 else none
  | b :: t => if isStartOf pat (b :: t) then some 0 else (bytesFind pat t).map (· + 1)

/-- Python `d.get(k)` over an association-list model of a `dict`. -/
def dictGet {α : Type} : List (String × α) → String → Option α
  | [], _ => none
  | (k2, v) :: t, k => if k2 = k then some v else dictGet t k

/-- Python `d[k] = v` over an association-list model of a `dict`. -/
def dictSet {α : Type} : List (String × α) → String → α → List (String × α)
  | [], k, v => [(k, v)]
  | (k2, w) :: t, k, v => if k2 = k then (k, v) :: t else (k2, w) :: dictSet t k v

/-- mith.py `DeviceType` (line 31). -/
inductive DeviceType
  | ATC1441
  | PVVX
deriving DecidableEq

/-- mith.py `Measurement` (line 53).  The `timestamp` field (wall clock) and
the `sensor_name` field (assigned after decoding, examined by no claim) are
omitted from the embedding. -/
structure Measurement where
  device_type : DeviceType
  adv_number : Nat
  adv_missed : Int
  temperature : Rat
  humidity : Rat
  battery_voltage : Nat
  battery_percentage : Nat
deriving DecidableEq

/-- The `MiTH._adv_counter` dict: mac → last advertisement number. -/
abbrev Counter := List (String × Nat)

/-- Outcome of one `decode_data_atc` call: a Python `return None` (`skip`),
a returned `Measurement` (`meas`), or an escaping `IndexError` (`fault`). -/
inductive DecodeResult
  | fault
  | skip
  | meas (m : Measurement)
deriving DecidableEq

/-- mith.py line 104: `preamble = b'\x16\x1a\x18'`. -/
def preamble : List Nat := [0x16, 0x1a, 0x18]

/-- mith.py lines 113-122: classify the post-preamble data by its length. -/
def classify (n : Nat) : Option DeviceType :=
  if n = 13 then some DeviceType.ATC1441
  else if n = 15 then some DeviceType.PVVX
  else none

/-- The `adv_number_offset` of mith.py lines 116/119 (`-1` resp. `-2`,
i.e. last resp. next-to-last byte) as a nonnegative index into `data`. -/
def seqIndex (dt : DeviceType) (n : Nat) : Nat :=
  match dt with
  | DeviceType.ATC1441 => n - 1
  | DeviceType.PVVX => n - 2

/-- mith.py line 129:
`adv_missed = (adv_number - adv_number_prev - 1) if adv_number_prev else 0`.
Python truthiness: `if adv_number_prev` is `False` both when no previous
value exists (`None`) and when the recorded previous value is `0`. -/
def missedOf (adv_number : Nat) (prev : Option Nat) : Int :=
  match prev with
  | none => 0
  | some p => if p = 0 then 0 else (adv_number : Int) - (p : Int) - 1

/-- mith.py lines 132-143: the per-format field decode.  `none` models an
`IndexError` on one of the scalar accesses `data[8]`, `data[9]`, `data[12]`
(slices such as `data[6:8]` clamp and cannot fault). -/
def decodeFields (dt : DeviceType) (data : List Nat) : Option (Rat × Rat × Nat × Nat) :=
  match dt with
  | DeviceType.ATC1441 => do
      let temperature : Rat := (signedOfBytesBE (pySlice data 6 8) : Rat) / 10
      let humidity ← data.get? 8
      let battery_percentage ← data.get? 9
      let battery_voltage := fromBytesBE (pySlice data 10 12)
      pure (temperature, (humidity : Rat), battery_voltage, battery_percentage)
  | DeviceType.PVVX => do
      let temperature : Rat := (signedOfBytesLE (pySlice data 6 8) : Rat) / 100
      let humidity : Rat := (fromBytesLE (pySlice data 8 10) : Rat) / 100
      let battery_voltage := fromBytesLE (pySlice data 10 12)
      let battery_percentage ← data.get? 12
      pure (temperature, humidity, battery_voltage, battery_percentage)

/-- mith.py lines 124-148, after the payload has been classified: read the
sequence byte, suppress duplicates, compute `adv_missed`, record the new
sequence value, decode the fields and build the `Measurement`.  The counter
is updated (line 130) before the field decode runs, so a field-decode fault
would leave the updated counter behind. -/
def decodeClassified (counter : Counter) (mac : String) (data : List Nat)
    (dt : DeviceType) : DecodeResult × Counter :=
  match data.get? (seqIndex dt data.length) with
  | none => (DecodeResult.fault, counter)
  | some adv_number =>
    if some adv_number = dictGet counter mac then (DecodeResult.skip, counter)
    else
      match decodeFields dt data with
      | none => (DecodeResult.fault, dictSet counter mac adv_number)
      | some (t, h, bv, bp) =>
        (DecodeResult.meas
          ⟨dt, adv_number, missedOf adv_number (dictGet counter mac), t, h, bv, bp⟩,
         dictSet counter mac adv_number)

/-- mith.py `MiTH.decode_data_atc` (lines 102-148), as a function of the
`_adv_counter` state: locate the preamble, classify the remaining data by
length, then decode.  Returns the decode outcome and the new counter. -/
def decode_data_atc (counter : Counter) (mac : String) (packet : List Nat) :
    DecodeResult × Counter :=
  match bytesFind preamble packet with
  | none => (DecodeResult.skip, counter)
  | some start =>
    let data := packet.drop (start + 3)
    match classify data.length with
    | none => (DecodeResult.skip, counter)
    | some dt => decodeClassified counter mac data dt

/-- The mutable state of a `MiTH` instance: `_adv_counter` (line 75) and
`_latest_measurement_time` (line 76, mac → `time.perf_counter()` value). -/
structure MiTHState where
  adv_counter : Counter
  latest_measurement_time : List (String × Rat)
deriving DecidableEq

/-- mith.py `MiTH.le_advertise_packet_handler` (lines 87-100) as a state
transformer; `now` stands for the `time.perf_counter()` reading.  Only when
`decode_data_atc` returns a measurement is `_latest_measurement_time[mac]`
assigned (line 95); logging is an external effect and is dropped. -/
def le_advertise_packet_handler (st : MiTHState) (now : Rat) (mac : String)
    (_advType : Int) (data : List Nat) (_rssi : Int) : MiTHState :=
  match decode_data_atc st.adv_counter mac data with
  | (DecodeResult.meas _, c2) => ⟨c2, dictSet st.latest_measurement_time mac now⟩
  | (_, c2) => ⟨c2, st.latest_measurement_time⟩

/-- A kernel HCI filter value as held by a socket: either whatever opaque
value was previously installed (`other`), or the filter built at btle.py
lines 79-81 (`hci_filter_new` + ptype `HCI_EVENT_PKT` + event
`LE_META_EVENT`), written `leMetaEvent`. -/
inductive HciFilter
  | other (n : Nat)
  | leMetaEvent
deriving DecidableEq

/-- Outcome of one caller-supplied handler invocation: normal return, or an
`Exception`-class error raised inside it (btle.py line 106 catches exactly
`Exception`). -/
inductive HandlerResult
  | ok
  | exn
deriving DecidableEq

/-- The caller-supplied handler of btle.py line 76, abstracted over its
result.  The external `bluez.ba2str` mac-string conversion is modelled by
passing the six raw address bytes through. -/
abbrev Handler := List Nat → Int → List Nat → Int → HandlerResult

/-- One outcome of the blocking `sock.recv(255)` call at btle.py line 86:
a delivered frame, an I/O error (`OSError`), or a `KeyboardInterrupt`
delivered at the receive call. -/
inductive RecvEvent
  | frame (pkt : List Nat)
  | ioError
  | interrupt
deriving DecidableEq

/-- Result of the per-frame envelope parsing of btle.py lines 87-102:
an uncaught `struct.error`/conversion fault, a frame filtered out by the
defensive event/sub-event checks (`continue`), or a delivered envelope. -/
inductive FrameStep
  | fault
  | skip
  | deliver (mac : List Nat) (advType : Int) (data : List Nat) (rssi : Int)
deriving DecidableEq

/-- Python `struct.unpack("b", ...)` on one byte: signed 8-bit value. -/
def signedByte (b : Nat) : Int :=
  if b < 128 then (b : Int) else (b : Int) - 256

/-- btle.py lines 87-102, the envelope extraction for one received frame.
`struct.unpack` raises `struct.error` when its slice does not have exactly
the format's size, so a fault arises when the frame is shorter than the
3-byte header (line 87), shorter than 4 bytes at the sub-event read
(line 94), or too short for the advertisement-type byte (line 98).  The
external `bluez.ba2str` (line 99) is modelled as requiring its full 6-byte
address slice. -/
def parseFrame (pkt : List Nat) : FrameStep :=
  if pkt.length < 3 then FrameStep.fault
  else if pkt.getD 1 0 ≠ 0x3E then FrameStep.skip
  else if pkt.length < 4 then FrameStep.fault
  else if pkt.getD 3 0 ≠ 0x02 then FrameStep.skip
  else
    let rest := pkt.drop 4
    if rest.length < 2 then FrameStep.fault
    else if (pySlice rest 3 9).length ≠ 6 then FrameStep.fault
    else
      FrameStep.deliver (pySlice rest 3 9) (signedByte (rest.getD 1 0))
        ((rest.drop 9).dropLast) (signedByte (pkt.getD (pkt.length - 1) 0))

/-- How the receive loop of btle.py lines 84-116 terminated. `exhausted`
is the model artifact for a finite trace running out of events (the real
loop would still be blocked in `recv`). -/
inductive LoopExit
  | interrupted
  | ioFailed
  | parseFault
  | exhausted
deriving DecidableEq

/-- btle.py lines 84-116: the receive-dispatch loop over a trace of receive
outcomes, tracking the filter installed on the socket.  An `OSError` from
`recv` and a `struct.error` from parsing match no `except` clause and
propagate with the current filter left installed; a `KeyboardInterrupt` is
caught, the saved `old_filter` is restored (line 113) and the interrupt is
re-raised (line 116); a handler exception is caught and logged (lines
104-109) and the loop continues either way: btle.py lines 104-109, the
`try/except Exception` around the handler call — the loop continues with
the same continuation whether the handler returned or raised. -/
def afterHandler (r : HandlerResult) (k : LoopExit × HciFilter) : LoopExit × HciFilter :=
  match r with
  | HandlerResult.ok => k
  | HandlerResult.exn => k

/-- btle.py lines 84-116: the receive-dispatch loop over a trace of receive
outcomes, tracking the filter installed on the socket.  An `OSError` from
`recv` and a `struct.error` from parsing match no `except` clause and
propagate with the current filter left installed; a `KeyboardInterrupt` is
caught, the saved `old_filter` is restored (line 113) and the interrupt is
re-raised (line 116). -/
def recvLoop (handler : Handler) (oldFilter : HciFilter) :
    List RecvEvent → HciFilter → LoopExit × HciFilter
  | [], f => (LoopExit.exhausted, f)
  | RecvEvent.ioError :: _, f => (LoopExit.ioFailed, f)
  | RecvEvent.interrupt :: _, _ => (LoopExit.interrupted, oldFilter)
  | RecvEvent.frame pkt :: rest, f =>
    match parseFrame pkt with
    | FrameStep.fault => (LoopExit.parseFault, f)
    | FrameStep.skip => recvLoop handler oldFilter rest f
    | FrameStep.deliver mac advType data rssi =>
      afterHandler (handler mac advType data rssi) (recvLoop handler oldFilter rest f)

/-- A socket handle: the currently installed kernel filter and the pending
trace of receive outcomes. -/
structure Sock where
  filter : HciFilter
  events : List RecvEvent
deriving DecidableEq

/-- btle.py `BtLe.parse_le_advertising_events` (lines 76-116): save the
currently installed filter (`getsockopt`, line 77), install the LE
meta-event filter (lines 79-82), run the loop.  Returns how the loop exited
and the filter left installed on the socket. -/
def parse_le_advertising_events (sock : Sock) (handler : Handler) :
    LoopExit × HciFilter :=
  recvLoop handler sock.filter sock.events HciFilter.leMetaEvent

/-- How `BtLe.handle_le_advertising_events` finished: a normal return, a
re-raised `KeyboardInterrupt` (no code path produces this, the model makes
the possibility expressible), a propagated `OSError`, a propagated
`struct.error`, or the model artifact for an exhausted trace. -/
inductive SessionOutcome
  | returned
  | raisedInterrupt
  | raisedIO
  | raisedParse
  | blocked
deriving DecidableEq

/-- The radio adapter as the session sees it: whether scanning is enabled,
the filter installed on the (to-be-opened) socket, and the receive trace. -/
structure Radio where
  scanning : Bool
  filter : HciFilter
  events : List RecvEvent
deriving DecidableEq

/-- btle.py `BtLe.handle_le_advertising_events` (lines 119-132): enable the
device, open the socket (modelled as succeeding), enable scanning, run
`parse_le_advertising_events`; a `KeyboardInterrupt` escaping it is caught,
scanning is disabled (line 132) and — there being no `raise` — the function
returns normally.  Any other escaping error propagates with scanning still
enabled. -/
def handle_le_advertising_events (radio : Radio) (handler : Handler) :
    SessionOutcome × Radio :=
  match parse_le_advertising_events ⟨radio.filter, radio.events⟩ handler with
  | (LoopExit.interrupted, f) => (SessionOutcome.returned, ⟨false, f, radio.events⟩)
  | (LoopExit.ioFailed, f) => (SessionOutcome.raisedIO, ⟨true, f, radio.events⟩)
  | (LoopExit.parseFault, f) => (SessionOutcome.raisedParse, ⟨true, f, radio.events⟩)
  | (LoopExit.exhausted, f) => (SessionOutcome.blocked, ⟨true, f, radio.events⟩)

/-- A handler that always returns normally (witness fixture). -/
def okHandler : Handler := fun _ _ _ _ => HandlerResult.ok

/-- A handler that always raises an `Exception` (witness fixture). -/
def exnHandler : Handler := fun _ _ _ _ => HandlerResult.exn

/-- A well-formed advertising-report frame (witness fixture): HCI event
packet, event `0x3E`, sub-event `0x02`, six address bytes, rssi byte. -/
def goodPkt : List Nat :=
  [0x04, 0x3E, 0x0A, 0x02, 0x01, 0x00, 0x00, 0xAA, 0xBB, 0xCC, 0x38, 0xC1, 0xA4, 0xC8]

/-- A socket whose trace delivers one well-formed frame and is then
interrupted (witness fixture). -/
def wSock : Sock :=
  ⟨HciFilter.other 7, [RecvEvent.frame goodPkt, RecvEvent.interrupt]⟩

/-! ## Helper lemmas -/

theorem fromBytesBE_pair (a b : Nat) : fromBytesBE [a, b] = a * 256 + b := by
  simp [fromBytesBE]

theorem fromBytesLE_pair (a b : Nat) : fromBytesLE [a, b] = a + b * 256 := by
  simp [fromBytesLE, fromBytesBE]
  omega

theorem signedOfBytesBE_pair (a b : Nat) :
    signedOfBytesBE [a, b] =
      if a * 256 + b < 32768 then ((a * 256 + b : Nat) : Int)
      else ((a * 256 + b : Nat) : Int) - 65536 := by
  unfold signedOfBytesBE toSignedWidth
  rw [fromBytesBE_pair]
  have hlen : ([a, b] : List Nat).length = 2 := rfl
  rw [hlen]
  have h1 : (2 : Nat) ^ (8 * 2) = 65536 := by norm_num
  have h2 : (2 : Int) ^ (8 * 2) = 65536 := by norm_num
  rw [h1, h2]
  exact if_congr ⟨fun h => by omega, fun h => by omega⟩ rfl rfl

theorem signedOfBytesLE_pair (a b : Nat) :
    signedOfBytesLE [a, b] =
      if b * 256 + a < 32768 then ((b * 256 + a : Nat) : Int)
      else ((b * 256 + a : Nat) : Int) - 65536 := by
  unfold signedOfBytesLE toSignedWidth
  rw [fromBytesLE_pair]
  have hlen : ([a, b] : List Nat).length = 2 := rfl
  rw [hlen]
  have hval : a + b * 256 = b * 256 + a := by omega
  rw [hval]
  have h1 : (2 : Nat) ^ (8 * 2) = 65536 := by norm_num
  have h2 : (2 : Int) ^ (8 * 2) = 65536 := by norm_num
  rw [h1, h2]
  exact if_congr ⟨fun h => by omega, fun h => by omega⟩ rfl rfl

theorem isStartOf_true_iff : ∀ pat l : List Nat, isStartOf pat l = true ↔ pat <+: l
  | [], l => by simp [isStartOf]
  | a :: ps, [] => by simp [isStartOf]
  | a :: ps, b :: ls => by
      rw [List.cons_prefix_cons]
      simp [isStartOf, isStartOf_true_iff ps ls]

theorem bytesFind_eq_none_of_absent (pat : List Nat) :
    ∀ packet : List Nat, ¬ pat <:+: packet → bytesFind pat packet = none := by
  intro packet
  induction packet with
  | nil =>
    intro h
    cases pat with
    | nil => exact absurd List.nil_infix h
    | cons a ps => simp [bytesFind, isStartOf]
  | cons b t ih =>
    intro h
    have h1 : isStartOf pat (b :: t) = false := by
      cases hs : isStartOf pat (b :: t)
      · rfl
      · exact absurd (((isStartOf_true_iff pat (b :: t)).mp hs).isInfix) h
    have h2 : bytesFind pat t = none := ih (fun hi => h (List.infix_cons hi))
    simp [bytesFind, h1, h2]

theorem decode_find_none (counter : Counter) (mac : String) (packet : List Nat)
    (h : bytesFind preamble packet = none) :
    decode_data_atc counter mac packet = (DecodeResult.skip, counter) := by
  unfold decode_data_atc
  rw [h]

theorem decode_find_some (counter : Counter) (mac : String) (packet : List Nat)
    (s : Nat) (h : bytesFind preamble packet = some s) :
    decode_data_atc counter mac packet =
      match classify (packet.drop (s + 3)).length with
      | none => (DecodeResult.skip, counter)
      | some dt => decodeClassified counter mac (packet.drop (s + 3)) dt := by
  unfold decode_data_atc
  rw [h]

theorem afterHandler_eq (r : HandlerResult) (k : LoopExit × HciFilter) :
    afterHandler r k = k := by
  cases r <;> rfl

theorem decodeClassified_meas (counter : Counter) (mac : String) (data : List Nat)
    (dt : DeviceType) (m : Measurement) (c2 : Counter)
    (h : decodeClassified counter mac data dt = (DecodeResult.meas m, c2)) :
    ∃ a, data.get? (seqIndex dt data.length) = some a ∧
      some a ≠ dictGet counter mac ∧
      c2 = dictSet counter mac a ∧
      m.device_type = dt ∧ m.adv_number = a ∧
      m.adv_missed = missedOf a (dictGet counter mac) ∧
      decodeFields dt data =
        some (m.temperature, m.humidity, m.battery_voltage, m.battery_percentage) := by
  unfold decodeClassified at h
  cases hg : data.get? (seqIndex dt data.length) <;> rw [hg] at h
  · simp at h
  case some a =>
    refine ⟨a, rfl, ?_⟩
    simp only [] at h
    split at h
    · simp at h
    case isFalse hne =>
      cases hfields : decodeFields dt data <;> rw [hfields] at h
      · simp at h
      case some q =>
        obtain ⟨t, hu, bv, bp⟩ := q
        simp only [Prod.mk.injEq, DecodeResult.meas.injEq] at h
        obtain ⟨hm, hc⟩ := h
        subst hm
        exact ⟨hne, hc.symm, rfl, rfl, rfl, rfl⟩

theorem recvLoop_cons_frame (handler : Handler) (oldFilter : HciFilter)
    (pkt : List Nat) (rest : List RecvEvent) (f : HciFilter) :
    recvLoop handler oldFilter (RecvEvent.frame pkt :: rest) f =
      if parseFrame pkt = FrameStep.fault then (LoopExit.parseFault, f)
      else recvLoop handler oldFilter rest f := by
  rw [recvLoop]
  cases parseFrame pkt
  · rw [if_pos rfl]
  · rw [if_neg (by simp)]
  case deliver mac advType data rssi =>
    rw [if_neg (by simp)]
    exact afterHandler_eq _ _

theorem recvLoop_interrupted_snd (handler : Handler) (oldFilter : HciFilter) :
    ∀ (events : List RecvEvent) (f : HciFilter),
      (recvLoop handler oldFilter events f).1 = LoopExit.interrupted →
      (recvLoop handler oldFilter events f).2 = oldFilter := by
  intro events
  induction events with
  | nil => intro f h; simp [recvLoop] at h
  | cons e rest ih =>
    intro f h
    cases e with
    | ioError => simp [recvLoop] at h
    | interrupt => simp [recvLoop]
    | frame pkt =>
      rw [recvLoop_cons_frame] at h ⊢
      by_cases hp : parseFrame pkt = FrameStep.fault
      · rw [if_pos hp] at h; simp at h
      · rw [if_neg hp] at h ⊢; exact ih f h

theorem recvLoop_ioFailed_snd (handler : Handler) (oldFilter : HciFilter) :
    ∀ (events : List RecvEvent) (f : HciFilter),
      (recvLoop handler oldFilter events f).1 = LoopExit.ioFailed →
      (recvLoop handler oldFilter events f).2 = f := by
  intro events
  induction events with
  | nil => intro f h; simp [recvLoop] at h
  | cons e rest ih =>
    intro f h
    cases e with
    | ioError => simp [recvLoop]
    | interrupt => simp [recvLoop] at h
    | frame pkt =>
      rw [recvLoop_cons_frame] at h ⊢
      by_cases hp : parseFrame pkt = FrameStep.fault
      · rw [if_pos hp]
      · rw [if_neg hp] at h ⊢; exact ih f h

theorem recvLoop_handler_irrel (h1 h2 : Handler) (oldFilter : HciFilter) :
    ∀ (events : List RecvEvent) (f : HciFilter),
      recvLoop h1 oldFilter events f = recvLoop h2 oldFilter events f := by
  intro events
  induction events with
  | nil => intro f; rfl
  | cons e rest ih =>
    intro f
    cases e with
    | ioError => rfl
    | interrupt => rfl
    | frame pkt =>
      rw [recvLoop_cons_frame, recvLoop_cons_frame]
      by_cases hp : parseFrame pkt = FrameStep.fault
      · rw [if_pos hp, if_pos hp]
      · rw [if_neg hp, if_neg hp]; exact ih f

theorem recvLoop_no_parse_fault (handler : Handler) (oldFilter : HciFilter) :
    ∀ (events : List RecvEvent) (f : HciFilter),
      (∀ pkt, RecvEvent.frame pkt ∈ events → parseFrame pkt ≠ FrameStep.fault) →
      (recvLoop handler oldFilter events f).1 = LoopExit.interrupted ∨
      (recvLoop handler oldFilter events f).1 = LoopExit.ioFailed ∨
      (recvLoop handler oldFilter events f).1 = LoopExit.exhausted := by
  intro events
  induction events with
  | nil => intro f _; right; right; rfl
  | cons e rest ih =>
    intro f hwf
    have hwfRest : ∀ pkt, RecvEvent.frame pkt ∈ rest → parseFrame pkt ≠ FrameStep.fault :=
      fun pkt hm => hwf pkt (List.mem_cons_of_mem _ hm)
    cases e with
    | ioError => right; left; rfl
    | interrupt => left; rfl
    | frame pkt =>
      rw [recvLoop_cons_frame]
      rw [if_neg (hwf pkt (List.mem_cons_self _ _))]
      exact ih f hwfRest

/-! ## Claim theorems -/

/-- C4 counterexample: the claim states the saved filter is restored on
every exit path including a fatal I/O failure on the receive call; on a
trace whose receive call fails with an `OSError`, the loop terminates with
its own LE meta-event filter still installed, not the saved `other 0`. -/
theorem c4_io_failure_counterexample :
    parse_le_advertising_events ⟨HciFilter.other 0, [RecvEvent.ioError]⟩ okHandler
      = (LoopExit.ioFailed, HciFilter.leMetaEvent) ∧
    HciFilter.leMetaEvent ≠ HciFilter.other 0 := by decide

/-- C4 (amended): the receive loop saves the previously installed kernel
filter before installing its own; on cancellation the saved filter is
restored before the interrupt propagates, while on a fatal I/O failure the
loop terminates with its own filter still installed (no restoration). -/
theorem c4_filter_restoration (sock : Sock) (handler : Handler) :
    ((parse_le_advertising_events sock handler).1 = LoopExit.interrupted →
      (parse_le_advertising_events sock handler).2 = sock.filter) ∧
    ((parse_le_advertising_events sock handler).1 = LoopExit.ioFailed →
      (parse_le_advertising_events sock handler).2 = HciFilter.leMetaEvent) :=
  ⟨recvLoop_interrupted_snd handler sock.filter sock.events HciFilter.leMetaEvent,
   recvLoop_ioFailed_snd handler sock.filter sock.events HciFilter.leMetaEvent⟩

/-- C4 witness: concrete traces exercising both exits of the amended claim. -/
theorem c4_filter_restoration_witness :
    (parse_le_advertising_events ⟨HciFilter.other 5, [RecvEvent.interrupt]⟩ okHandler).2
      = HciFilter.other 5 ∧
    (parse_le_advertising_events ⟨HciFilter.other 5, [RecvEvent.ioError]⟩ okHandler).2
      = HciFilter.leMetaEvent :=
  ⟨(c4_filter_restoration ⟨HciFilter.other 5, [RecvEvent.interrupt]⟩ okHandler).1 (by decide),
   (c4_filter_restoration ⟨HciFilter.other 5, [RecvEvent.ioError]⟩ okHandler).2 (by decide)⟩

/-- C5 counterexample: the claim states the session exits with the
interrupt re-raised to the caller; on an interrupted trace the session
instead returns normally (`except KeyboardInterrupt:` at btle.py line 131
has no `raise`), so the outcome is `returned`, not `raisedInterrupt`. -/
theorem c5_interrupt_swallowed_counterexample :
    handle_le_advertising_events ⟨false, HciFilter.other 0, [RecvEvent.interrupt]⟩ okHandler
      = (SessionOutcome.returned, ⟨false, HciFilter.other 0, [RecvEvent.interrupt]⟩) ∧
    SessionOutcome.returned ≠ SessionOutcome.raisedInterrupt := by decide

/-- C5 (amended): when the external interrupt cancels the session, the
session disables scanning at the radio and the original kernel filter is
back in place, but the session then returns normally — the interrupt is
caught and swallowed, not propagated to the caller. -/
theorem c5_interrupt_cleanup (radio : Radio) (handler : Handler)
    (h : (parse_le_advertising_events ⟨radio.filter, radio.events⟩ handler).1
      = LoopExit.interrupted) :
    handle_le_advertising_events radio handler
      = (SessionOutcome.returned, ⟨false, radio.filter, radio.events⟩) := by
  have h2 : (parse_le_advertising_events ⟨radio.filter, radio.events⟩ handler).2
      = radio.filter :=
    recvLoop_interrupted_snd handler radio.filter radio.events HciFilter.leMetaEvent h
  have hpair : parse_le_advertising_events ⟨radio.filter, radio.events⟩ handler
      = (LoopExit.interrupted, radio.filter) := Prod.ext h h2
  unfold handle_le_advertising_events
  rw [hpair]

/-- C5 witness: a concrete interrupted trace for the amended claim. -/
theorem c5_interrupt_cleanup_witness :
    handle_le_advertising_events ⟨true, HciFilter.other 3, [RecvEvent.interrupt]⟩ okHandler
      = (SessionOutcome.returned, ⟨false, HciFilter.other 3, [RecvEvent.interrupt]⟩) :=
  c5_interrupt_cleanup ⟨true, HciFilter.other 3, [RecvEvent.interrupt]⟩ okHandler (by decide)

/-- C8 counterexample: the claim states a frame shorter than the minimum
envelope is dropped and the loop continues (which on this one-frame trace
would end in the `exhausted` state); instead the `struct.unpack` fault
propagates and the loop terminates with `parseFault`. -/
theorem c8_truncated_counterexample :
    parse_le_advertising_events ⟨HciFilter.other 0, [RecvEvent.frame [0x3E, 0x02]]⟩ okHandler
      = (LoopExit.parseFault, HciFilter.leMetaEvent) ∧
    LoopExit.parseFault ≠ LoopExit.exhausted := by decide

/-- C8 (amended): a received frame shorter than the 3-byte header makes the
first `struct.unpack` raise; no truncation check exists, the error matches
no `except` clause, and the loop terminates at once with its own filter
still installed instead of dropping the frame and continuing. -/
theorem c8_short_frame_terminates (sock : Sock) (handler : Handler) (pkt : List Nat)
    (rest : List RecvEvent) (hev : sock.events = RecvEvent.frame pkt :: rest)
    (hlen : pkt.length < 3) :
    parse_le_advertising_events sock handler
      = (LoopExit.parseFault, HciFilter.leMetaEvent) := by
  have hp : parseFrame pkt = FrameStep.fault := by
    unfold parseFrame
    rw [if_pos hlen]
  unfold parse_le_advertising_events
  rw [hev, recvLoop_cons_frame, if_pos hp]

/-- C8 witness: a concrete one-byte frame for the amended claim. -/
theorem c8_short_frame_terminates_witness :
    parse_le_advertising_events ⟨HciFilter.other 0, [RecvEvent.frame [0x3E]]⟩ okHandler
      = (LoopExit.parseFault, HciFilter.leMetaEvent) :=
  c8_short_frame_terminates ⟨HciFilter.other 0, [RecvEvent.frame [0x3E]]⟩ okHandler
    [0x3E] [] rfl (by decide)

/-- C9: on any trace whose frames all parse without fault (what the
installed kernel filter guarantees), the loop's exit and final filter are
independent of the caller-supplied handler — an exception raised by the
handler is caught and logged and the loop proceeds — and the loop can
terminate only by cancellation or by an I/O failure of the receive call
(`exhausted` being the model artifact for a loop still running when the
finite trace ends). -/
theorem c9_handler_isolation (sock : Sock) (h1 h2 : Handler)
    (hwf : ∀ pkt, RecvEvent.frame pkt ∈ sock.events → parseFrame pkt ≠ FrameStep.fault) :
    parse_le_advertising_events sock h1 = parse_le_advertising_events sock h2 ∧
    ((parse_le_advertising_events sock h1).1 = LoopExit.interrupted ∨
     (parse_le_advertising_events sock h1).1 = LoopExit.ioFailed ∨
     (parse_le_advertising_events sock h1).1 = LoopExit.exhausted) :=
  ⟨recvLoop_handler_irrel h1 h2 sock.filter sock.events HciFilter.leMetaEvent,
   recvLoop_no_parse_fault h1 sock.filter sock.events HciFilter.leMetaEvent hwf⟩

/-- C9 witness: a well-formed frame delivered to an always-raising handler
leaves the loop outcome identical to an always-returning handler. -/
theorem c9_handler_isolation_witness :
    parse_le_advertising_events wSock exnHandler = parse_le_advertising_events wSock okHandler ∧
    ((parse_le_advertising_events wSock exnHandler).1 = LoopExit.interrupted ∨
     (parse_le_advertising_events wSock exnHandler).1 = LoopExit.ioFailed ∨
     (parse_le_advertising_events wSock exnHandler).1 = LoopExit.exhausted) :=
  c9_handler_isolation wSock exnHandler okHandler (by
    intro pkt hm
    simp [wSock] at hm
    subst hm
    decide)

/-- C1: the code's missed-count at the two inputs where it contradicts the
claim.  With previous sequence 255 and current 1 the code returns
`adv_missed = 1 - 255 - 1 = -255` (no modular reduction), where the claim's
`(current - previous - 1) mod 256` is `1`; with a recorded previous of `0`
and current `5` the Python truthiness test `if adv_number_prev` treats the
previous as absent and the code returns `0`, where the claim requires `4`. -/
theorem c1_missed_count_code_behavior :
    decode_data_atc [("A", 255)] "A"
        ([0x16, 0x1a, 0x18] ++ [0, 0, 0, 0, 0, 0, 0, 0, 0, 0, 0, 0, 1])
      = (DecodeResult.meas
          ⟨DeviceType.ATC1441, 1, -255, ((0 : Int) : Rat) / 10, ((0 : Nat) : Rat), 0, 0⟩,
         [("A", 1)]) ∧
    (-255 : Int) ≠ ((1 : Int) - 255 - 1) % 256 ∧
    decode_data_atc [("B", 0)] "B"
        ([0x16, 0x1a, 0x18] ++ [0, 0, 0, 0, 0, 0, 0, 0, 0, 0, 0, 0, 5])
      = (DecodeResult.meas
          ⟨DeviceType.ATC1441, 5, 0, ((0 : Int) : Rat) / 10, ((0 : Nat) : Rat), 0, 0⟩,
         [("B", 5)]) ∧
    (0 : Int) ≠ ((5 : Int) - 0 - 1) % 256 :=
  ⟨rfl, by decide, rfl, by decide⟩

/-- C2 counterexample: the claim states FormatA battery_millivolts is the
little-endian 16-bit value at offset 10; on a payload with bytes `0x0B 0xB8`
there, the code (default big-endian `int.from_bytes`) yields 3000, not the
little-endian 47115.  The same decode confirms the claim's own temperature
example: bytes `0x00 0xFA` yield 25.0 °C. -/
theorem c2_battery_endianness_counterexample :
    decode_data_atc [] "A"
        ([0x16, 0x1a, 0x18] ++ [0, 0, 0, 0, 0, 0, 0x00, 0xFA, 50, 90, 0x0B, 0xB8, 7])
      = (DecodeResult.meas
          ⟨DeviceType.ATC1441, 7, 0, ((250 : Int) : Rat) / 10, ((50 : Nat) : Rat), 3000, 90⟩,
         [("A", 7)]) ∧
    (3000 : Nat) ≠ 0x0B + 256 * 0xB8 :=
  ⟨rfl, by decide⟩

/-- C2 (amended): for every payload classified as FormatA (13 data bytes
after the preamble) on which decode returns a Measurement, temperature is
the big-endian signed 16-bit integer at offset 6 divided by 10, humidity
is the unsigned byte at offset 8, battery_percent is the unsigned byte at
offset 9, and battery_millivolts is the BIG-endian unsigned 16-bit integer
at offset 10. -/
theorem c2_formatA_fields (counter : Counter) (mac : String) (packet : List Nat)
    (s b0 b1 b2 b3 b4 b5 b6 b7 b8 b9 b10 b11 b12 : Nat) (m : Measurement) (c2 : Counter)
    (hf : bytesFind preamble packet = some s)
    (hd : packet.drop (s + 3) = [b0, b1, b2, b3, b4, b5, b6, b7, b8, b9, b10, b11, b12])
    (hm : decode_data_atc counter mac packet = (DecodeResult.meas m, c2)) :
    m.device_type = DeviceType.ATC1441 ∧
    m.temperature = (((if b6 * 256 + b7 < 32768 then ((b6 * 256 + b7 : Nat) : Int)
        else ((b6 * 256 + b7 : Nat) : Int) - 65536) : Int) : Rat) / 10 ∧
    m.humidity = (b8 : Rat) ∧
    m.battery_percentage = b9 ∧
    m.battery_voltage = b10 * 256 + b11 := by
  rw [decode_find_some counter mac packet s hf, hd] at hm
  have hcl : classify ([b0, b1, b2, b3, b4, b5, b6, b7, b8, b9, b10, b11, b12]
      : List Nat).length = some DeviceType.ATC1441 := rfl
  rw [hcl] at hm
  replace hm : decodeClassified counter mac
      [b0, b1, b2, b3, b4, b5, b6, b7, b8, b9, b10, b11, b12] DeviceType.ATC1441
      = (DecodeResult.meas m, c2) := hm
  obtain ⟨a, hga, hne, hc2, hdt, hadv, hmiss, hfields⟩ :=
    decodeClassified_meas _ _ _ _ _ _ hm
  have hf2 : (some (((signedOfBytesBE [b6, b7] : Int) : Rat) / 10, (b8 : Rat),
      fromBytesBE [b10, b11], b9) : Option (Rat × Rat × Nat × Nat))
      = some (m.temperature, m.humidity, m.battery_voltage, m.battery_percentage) :=
    hfields
  simp only [Option.some.injEq, Prod.mk.injEq] at hf2
  obtain ⟨ht, hh, hbv, hbp⟩ := hf2
  refine ⟨hdt, ?_, hh.symm, hbp.symm, ?_⟩
  · rw [← ht, signedOfBytesBE_pair]
  · rw [← hbv, fromBytesBE_pair]

/-- C2 witness: a concrete FormatA payload (temperature bytes `0xFF 0x38`,
i.e. −20.0 °C) instantiating the amended claim. -/
theorem c2_formatA_fields_witness :
    (⟨DeviceType.ATC1441, 3, 0, ((-200 : Int) : Rat) / 10, ((44 : Nat) : Rat), 4097, 81⟩
        : Measurement).device_type = DeviceType.ATC1441 ∧
    (⟨DeviceType.ATC1441, 3, 0, ((-200 : Int) : Rat) / 10, ((44 : Nat) : Rat), 4097, 81⟩
        : Measurement).temperature
      = (((if 0xFF * 256 + 0x38 < 32768 then ((0xFF * 256 + 0x38 : Nat) : Int)
          else ((0xFF * 256 + 0x38 : Nat) : Int) - 65536) : Int) : Rat) / 10 ∧
    (⟨DeviceType.ATC1441, 3, 0, ((-200 : Int) : Rat) / 10, ((44 : Nat) : Rat), 4097, 81⟩
        : Measurement).humidity = (44 : Rat) ∧
    (⟨DeviceType.ATC1441, 3, 0, ((-200 : Int) : Rat) / 10, ((44 : Nat) : Rat), 4097, 81⟩
        : Measurement).battery_percentage = 81 ∧
    (⟨DeviceType.ATC1441, 3, 0, ((-200 : Int) : Rat) / 10, ((44 : Nat) : Rat), 4097, 81⟩
        : Measurement).battery_voltage = 0x10 * 256 + 0x01 :=
  c2_formatA_fields [] "W"
    ([0x16, 0x1a, 0x18] ++ [1, 2, 3, 4, 5, 6, 0xFF, 0x38, 44, 81, 0x10, 0x01, 3])
    0 1 2 3 4 5 6 0xFF 0x38 44 81 0x10 0x01 3
    ⟨DeviceType.ATC1441, 3, 0, ((-200 : Int) : Rat) / 10, ((44 : Nat) : Rat), 4097, 81⟩
    [("W", 3)] (by rfl) (by rfl) (by rfl)

/-- C3: a Measurement is produced only when the decoded sequence byte
differs from the last sequence recorded for that address; when it equals
the recorded value, decode returns None with the per-address counter
unchanged, and the handler leaves the whole state — counter and
per-address last-observation time — unchanged. -/
theorem c3_duplicate_suppression (counter : Counter) (latest : List (String × Rat))
    (mac : String) (packet : List Nat) (now : Rat) (advType rssi : Int) :
    (∀ m c2 p, decode_data_atc counter mac packet = (DecodeResult.meas m, c2) →
        dictGet counter mac = some p → m.adv_number ≠ p) ∧
    (∀ s dt a, bytesFind preamble packet = some s →
        classify (packet.drop (s + 3)).length = some dt →
        (packet.drop (s + 3)).get? (seqIndex dt (packet.drop (s + 3)).length) = some a →
        dictGet counter mac = some a →
        decode_data_atc counter mac packet = (DecodeResult.skip, counter) ∧
        le_advertise_packet_handler ⟨counter, latest⟩ now mac advType packet rssi
          = ⟨counter, latest⟩) := by
  constructor
  · intro m c2 p hm hp
    unfold decode_data_atc at hm
    cases hfind : bytesFind preamble packet <;> rw [hfind] at hm
    · simp at hm
    case some s =>
      simp only [] at hm
      cases hcl : classify (packet.drop (s + 3)).length <;> rw [hcl] at hm
      · simp at hm
      case some dt =>
        obtain ⟨a, hga, hne, _, _, hadv, _, _⟩ := decodeClassified_meas _ _ _ _ _ _ hm
        rw [hadv]
        intro hap
        exact hne (by rw [hap, hp])
  · intro s dt a hf hcl hga hprev
    have hskip : decodeClassified counter mac (packet.drop (s + 3)) dt
        = (DecodeResult.skip, counter) := by
      unfold decodeClassified
      rw [hga]
      simp only []
      rw [if_pos (by rw [hprev])]
    have hdec : decode_data_atc counter mac packet = (DecodeResult.skip, counter) := by
      rw [decode_find_some counter mac packet s hf, hcl]
      exact hskip
    refine ⟨hdec, ?_⟩
    simp only [le_advertise_packet_handler]
    rw [hdec]

/-- C3 witness: a fresh sequence 9 against recorded 4 differs; a repeated
sequence 7 is suppressed with counter and observation-time map unchanged. -/
theorem c3_duplicate_suppression_witness :
    (⟨DeviceType.ATC1441, 9, 4, ((0 : Int) : Rat) / 10, ((0 : Nat) : Rat), 0, 0⟩
        : Measurement).adv_number ≠ 4 ∧
    (decode_data_atc [("A", 7)] "A"
        ([0x16, 0x1a, 0x18] ++ [0, 0, 0, 0, 0, 0, 0, 0, 0, 0, 0, 0, 7])
      = (DecodeResult.skip, [("A", 7)]) ∧
     le_advertise_packet_handler ⟨[("A", 7)], []⟩ 1 "A" 0
        ([0x16, 0x1a, 0x18] ++ [0, 0, 0, 0, 0, 0, 0, 0, 0, 0, 0, 0, 7]) 0
      = ⟨[("A", 7)], []⟩) :=
  ⟨(c3_duplicate_suppression [("A", 4)] [] "A"
      ([0x16, 0x1a, 0x18] ++ [0, 0, 0, 0, 0, 0, 0, 0, 0, 0, 0, 0, 9]) 1 0 0).1
      ⟨DeviceType.ATC1441, 9, 4, ((0 : Int) : Rat) / 10, ((0 : Nat) : Rat), 0, 0⟩
      [("A", 9)] 4 (by rfl) (by rfl),
   (c3_duplicate_suppression [("A", 7)] [] "A"
      ([0x16, 0x1a, 0x18] ++ [0, 0, 0, 0, 0, 0, 0, 0, 0, 0, 0, 0, 7]) 1 0 0).2
      0 DeviceType.ATC1441 7 (by rfl) (by rfl) (by rfl) (by rfl)⟩

/-- C6: decode returns None whenever the vendor preamble is absent from
the payload; with the preamble present it returns None whenever the data
after the preamble has a length other than 13 or 15; length 13 classifies
as FormatA (ATC1441) with the sequence byte at the last position, and
length 15 as FormatB (PVVX) with the sequence byte at the second-to-last
position. -/
theorem c6_classification (counter : Counter) (mac : String) (packet : List Nat) :
    (¬ preamble <:+: packet →
      decode_data_atc counter mac packet = (DecodeResult.skip, counter)) ∧
    (∀ s, bytesFind preamble packet = some s →
      (packet.drop (s + 3)).length ≠ 13 → (packet.drop (s + 3)).length ≠ 15 →
      decode_data_atc counter mac packet = (DecodeResult.skip, counter)) ∧
    (∀ s m c2, bytesFind preamble packet = some s →
      (packet.drop (s + 3)).length = 13 →
      decode_data_atc counter mac packet = (DecodeResult.meas m, c2) →
      m.device_type = DeviceType.ATC1441 ∧
      (packet.drop (s + 3)).get? ((packet.drop (s + 3)).length - 1) = some m.adv_number) ∧
    (∀ s m c2, bytesFind preamble packet = some s →
      (packet.drop (s + 3)).length = 15 →
      decode_data_atc counter mac packet = (DecodeResult.meas m, c2) →
      m.device_type = DeviceType.PVVX ∧
      (packet.drop (s + 3)).get? ((packet.drop (s + 3)).length - 2) = some m.adv_number) := by
  refine ⟨?_, ?_, ?_, ?_⟩
  · intro h
    exact decode_find_none _ _ _ (bytesFind_eq_none_of_absent preamble packet h)
  · intro s hf h13 h15
    rw [decode_find_some counter mac packet s hf]
    have hcl : classify (packet.drop (s + 3)).length = none := by
      unfold classify
      rw [if_neg h13, if_neg h15]
    rw [hcl]
  · intro s m c2 hf h13 hm
    rw [decode_find_some counter mac packet s hf] at hm
    have hcl : classify (packet.drop (s + 3)).length = some DeviceType.ATC1441 := by
      unfold classify
      rw [if_pos h13]
    rw [hcl] at hm
    replace hm : decodeClassified counter mac (packet.drop (s + 3)) DeviceType.ATC1441
        = (DecodeResult.meas m, c2) := hm
    obtain ⟨a, hga, _, _, hdt, hadv, _, _⟩ := decodeClassified_meas _ _ _ _ _ _ hm
    refine ⟨hdt, ?_⟩
    rw [hadv]
    exact hga
  · intro s m c2 hf h15 hm
    rw [decode_find_some counter mac packet s hf] at hm
    have hcl : classify (packet.drop (s + 3)).length = some DeviceType.PVVX := by
      unfold classify
      rw [if_neg (by omega : ¬ (packet.drop (s + 3)).length = 13), if_pos h15]
    rw [hcl] at hm
    replace hm : decodeClassified counter mac (packet.drop (s + 3)) DeviceType.PVVX
        = (DecodeResult.meas m, c2) := hm
    obtain ⟨a, hga, _, _, hdt, hadv, _, _⟩ := decodeClassified_meas _ _ _ _ _ _ hm
    refine ⟨hdt, ?_⟩
    rw [hadv]
    exact hga

/-- C6 witness: concrete payloads exercising all four parts — no preamble,
a 5-byte data section, a FormatA payload with sequence byte 2 at the last
position, and a FormatB payload with sequence byte 6 second-to-last. -/
theorem c6_classification_witness :
    decode_data_atc [] "A" [1, 2, 3, 4] = (DecodeResult.skip, []) ∧
    decode_data_atc [] "A" [0x16, 0x1a, 0x18, 9, 9, 9, 9, 9] = (DecodeResult.skip, []) ∧
    ((⟨DeviceType.ATC1441, 2, 0, ((0 : Int) : Rat) / 10, ((0 : Nat) : Rat), 0, 0⟩
        : Measurement).device_type = DeviceType.ATC1441 ∧
      (([0x16, 0x1a, 0x18, 0, 0, 0, 0, 0, 0, 0, 0, 0, 0, 0, 0, 2] : List Nat).drop
          (0 + 3)).get?
        ((([0x16, 0x1a, 0x18, 0, 0, 0, 0, 0, 0, 0, 0, 0, 0, 0, 0, 2] : List Nat).drop
          (0 + 3)).length - 1) = some 2) ∧
    ((⟨DeviceType.PVVX, 6, 0, ((0 : Int) : Rat) / 100, ((0 : Nat) : Rat) / 100, 0, 0⟩
        : Measurement).device_type = DeviceType.PVVX ∧
      (([0x16, 0x1a, 0x18, 0, 0, 0, 0, 0, 0, 0, 0, 0, 0, 0, 0, 0, 6, 0] : List Nat).drop
          (0 + 3)).get?
        ((([0x16, 0x1a, 0x18, 0, 0, 0, 0, 0, 0, 0, 0, 0, 0, 0, 0, 0, 6, 0] : List Nat).drop
          (0 + 3)).length - 2) = some 6) :=
  ⟨(c6_classification [] "A" [1, 2, 3, 4]).1 (by decide),
   (c6_classification [] "A" [0x16, 0x1a, 0x18, 9, 9, 9, 9, 9]).2.1 0 (by rfl)
     (by decide) (by decide),
   (c6_classification [] "A"
       [0x16, 0x1a, 0x18, 0, 0, 0, 0, 0, 0, 0, 0, 0, 0, 0, 0, 2]).2.2.1 0
     ⟨DeviceType.ATC1441, 2, 0, ((0 : Int) : Rat) / 10, ((0 : Nat) : Rat), 0, 0⟩
     [("A", 2)] (by rfl) (by rfl) (by rfl),
   (c6_classification [] "A"
       [0x16, 0x1a, 0x18, 0, 0, 0, 0, 0, 0, 0, 0, 0, 0, 0, 0, 0, 6, 0]).2.2.2 0
     ⟨DeviceType.PVVX, 6, 0, ((0 : Int) : Rat) / 100, ((0 : Nat) : Rat) / 100, 0, 0⟩
     [("A", 6)] (by rfl) (by rfl) (by rfl)⟩

/-- C7: for every payload classified as FormatB (15 data bytes after the
preamble) on which decode returns a Measurement, temperature is the
little-endian signed 16-bit integer at offset 6 divided by 100, humidity
is the little-endian unsigned 16-bit integer at offset 8 divided by 100,
battery_millivolts is the little-endian unsigned 16-bit integer at offset
10, and battery_percent is the unsigned byte at offset 12. -/
theorem c7_formatB_fields (counter : Counter) (mac : String) (packet : List Nat)
    (s b0 b1 b2 b3 b4 b5 b6 b7 b8 b9 b10 b11 b12 b13 b14 : Nat)
    (m : Measurement) (c2 : Counter)
    (hf : bytesFind preamble packet = some s)
    (hd : packet.drop (s + 3)
      = [b0, b1, b2, b3, b4, b5, b6, b7, b8, b9, b10, b11, b12, b13, b14])
    (hm : decode_data_atc counter mac packet = (DecodeResult.meas m, c2)) :
    m.device_type = DeviceType.PVVX ∧
    m.temperature = (((if b7 * 256 + b6 < 32768 then ((b7 * 256 + b6 : Nat) : Int)
        else ((b7 * 256 + b6 : Nat) : Int) - 65536) : Int) : Rat) / 100 ∧
    m.humidity = ((b8 + b9 * 256 : Nat) : Rat) / 100 ∧
    m.battery_voltage = b10 + b11 * 256 ∧
    m.battery_percentage = b12 := by
  rw [decode_find_some counter mac packet s hf, hd] at hm
  have hcl : classify ([b0, b1, b2, b3, b4, b5, b6, b7, b8, b9, b10, b11, b12, b13, b14]
      : List Nat).length = some DeviceType.PVVX := rfl
  rw [hcl] at hm
  replace hm : decodeClassified counter mac
      [b0, b1, b2, b3, b4, b5, b6, b7, b8, b9, b10, b11, b12, b13, b14] DeviceType.PVVX
      = (DecodeResult.meas m, c2) := hm
  obtain ⟨a, hga, hne, hc2, hdt, hadv, hmiss, hfields⟩ :=
    decodeClassified_meas _ _ _ _ _ _ hm
  have hf2 : (some (((signedOfBytesLE [b6, b7] : Int) : Rat) / 100,
      ((fromBytesLE [b8, b9] : Nat) : Rat) / 100, fromBytesLE [b10, b11], b12)
      : Option (Rat × Rat × Nat × Nat))
      = some (m.temperature, m.humidity, m.battery_voltage, m.battery_percentage) :=
    hfields
  simp only [Option.some.injEq, Prod.mk.injEq] at hf2
  obtain ⟨ht, hh, hbv, hbp⟩ := hf2
  refine ⟨hdt, ?_, ?_, ?_, hbp.symm⟩
  · rw [← ht, signedOfBytesLE_pair]
  · rw [← hh, fromBytesLE_pair]
  · rw [← hbv, fromBytesLE_pair]

/-- C7 witness: the claim's own humidity example — raw little-endian bytes
`0x70 0x17` (6000) decode to 60.00 % — on a concrete FormatB payload. -/
theorem c7_formatB_fields_witness :
    (⟨DeviceType.PVVX, 9, 0, ((266 : Int) : Rat) / 100, ((6000 : Nat) : Rat) / 100, 3000, 55⟩
        : Measurement).device_type = DeviceType.PVVX ∧
    (⟨DeviceType.PVVX, 9, 0, ((266 : Int) : Rat) / 100, ((6000 : Nat) : Rat) / 100, 3000, 55⟩
        : Measurement).temperature
      = (((if 0x01 * 256 + 0x0A < 32768 then ((0x01 * 256 + 0x0A : Nat) : Int)
          else ((0x01 * 256 + 0x0A : Nat) : Int) - 65536) : Int) : Rat) / 100 ∧
    (⟨DeviceType.PVVX, 9, 0, ((266 : Int) : Rat) / 100, ((6000 : Nat) : Rat) / 100, 3000, 55⟩
        : Measurement).humidity = ((0x70 + 0x17 * 256 : Nat) : Rat) / 100 ∧
    (⟨DeviceType.PVVX, 9, 0, ((266 : Int) : Rat) / 100, ((6000 : Nat) : Rat) / 100, 3000, 55⟩
        : Measurement).battery_voltage = 0xB8 + 0x0B * 256 ∧
    (⟨DeviceType.PVVX, 9, 0, ((266 : Int) : Rat) / 100, ((6000 : Nat) : Rat) / 100, 3000, 55⟩
        : Measurement).battery_percentage = 55 :=
  c7_formatB_fields [] "W"
    ([0x16, 0x1a, 0x18] ++ [0, 0, 0, 0, 0, 0, 0x0A, 0x01, 0x70, 0x17, 0xB8, 0x0B, 55, 9, 0])
    0 0 0 0 0 0 0 0x0A 0x01 0x70 0x17 0xB8 0x0B 55 9 0
    ⟨DeviceType.PVVX, 9, 0, ((266 : Int) : Rat) / 100, ((6000 : Nat) : Rat) / 100, 3000, 55⟩
    [("W", 9)] (by rfl) (by rfl) (by rfl)

theorem decodeFields_ne_none_ATC (data : List Nat) (h8 : 8 < data.length)
    (h9 : 9 < data.length) : decodeFields DeviceType.ATC1441 data ≠ none := by
  unfold decodeFields
  rw [List.get?_eq_get h8, List.get?_eq_get h9]
  simp

theorem decodeFields_ne_none_PVVX (data : List Nat) (h12 : 12 < data.length) :
    decodeFields DeviceType.PVVX data ≠ none := by
  unfold decodeFields
  rw [List.get?_eq_get h12]
  simp

theorem decodeClassified_fault (counter : Counter) (mac : String) (data : List Nat)
    (dt : DeviceType)
    (h : (decodeClassified counter mac data dt).1 = DecodeResult.fault) :
    data.get? (seqIndex dt data.length) = none ∨ decodeFields dt data = none := by
  unfold decodeClassified at h
  cases hg : data.get? (seqIndex dt data.length) <;> rw [hg] at h
  · exact Or.inl rfl
  case some a =>
    simp only [] at h
    split at h
    · simp at h
    · cases hfl : decodeFields dt data <;> rw [hfl] at h
      · exact Or.inr rfl
      case some q =>
        obtain ⟨t, hu, bv, bp⟩ := q
        simp at h

/-- C10: on every payload whose post-preamble data length is exactly 13 or
exactly 15, every scalar byte access decode performs (the sequence byte and
the per-format field reads) is within the data's bounds, so decode never
ends in the `fault` outcome that models an `IndexError`. -/
theorem c10_no_out_of_bounds (counter : Counter) (mac : String) (packet : List Nat)
    (s : Nat) (hf : bytesFind preamble packet = some s)
    (hn : (packet.drop (s + 3)).length = 13 ∨ (packet.drop (s + 3)).length = 15) :
    (decode_data_atc counter mac packet).1 ≠ DecodeResult.fault := by
  rw [decode_find_some counter mac packet s hf]
  intro hcontra
  rcases hn with h13 | h15
  · have hcl : classify (packet.drop (s + 3)).length = some DeviceType.ATC1441 := by
      unfold classify
      rw [if_pos h13]
    rw [hcl] at hcontra
    replace hcontra : (decodeClassified counter mac (packet.drop (s + 3))
        DeviceType.ATC1441).1 = DecodeResult.fault := hcontra
    rcases decodeClassified_fault _ _ _ _ hcontra with hseq | hfl
    · rw [List.get?_eq_get (by rw [h13]; decide :
        seqIndex DeviceType.ATC1441 (packet.drop (s + 3)).length
          < (packet.drop (s + 3)).length)] at hseq
      exact Option.noConfusion hseq
    · exact decodeFields_ne_none_ATC _ (by omega) (by omega) hfl
  · have hcl : classify (packet.drop (s + 3)).length = some DeviceType.PVVX := by
      unfold classify
      rw [if_neg (by omega : ¬ (packet.drop (s + 3)).length = 13), if_pos h15]
    rw [hcl] at hcontra
    replace hcontra : (decodeClassified counter mac (packet.drop (s + 3))
        DeviceType.PVVX).1 = DecodeResult.fault := hcontra
    rcases decodeClassified_fault _ _ _ _ hcontra with hseq | hfl
    · rw [List.get?_eq_get (by rw [h15]; decide :
        seqIndex DeviceType.PVVX (packet.drop (s + 3)).length
          < (packet.drop (s + 3)).length)] at hseq
      exact Option.noConfusion hseq
    · exact decodeFields_ne_none_PVVX _ (by omega) hfl

/-- C10 witness: a concrete FormatA payload decodes without fault. -/
theorem c10_no_out_of_bounds_witness :
    (decode_data_atc [] "A"
      ([0x16, 0x1a, 0x18] ++ [0, 0, 0, 0, 0, 0, 0, 0, 0, 0, 0, 0, 8])).1
      ≠ DecodeResult.fault :=
  c10_no_out_of_bounds [] "A"
    ([0x16, 0x1a, 0x18] ++ [0, 0, 0, 0, 0, 0, 0, 0, 0, 0, 0, 0, 8]) 0
    (by rfl) (Or.inl (by rfl))
